import Mathlib

/-!
Shallow embedding of the book-recommendation scorer from
`src/Chatbot_Recommender.py` (function `demo_recommend` and its helper
`_genre_overlap`), together with proofs of the specified properties.

Python floats are modelled by exact rationals (`ℚ`); the module-level
constant `CURRENT_YEAR` (read from the clock at import time) is modelled
as an explicit parameter `cy`; the hard-coded global `DEMO_DB` catalog is
modelled as an explicit `catalog` parameter (the source loops over the
global list; the loop body is unchanged).  Python's truthiness test
`if tone:` is modelled by `toneTruthy` (a `None`/empty-string check).
-/

namespace ChatbotRecommender

/-- A record of the demo catalog: `(title, author, year, tone, genres, popularity)`. -/
structure Book where
  title : String
  author : String
  year : Int
  tone : String
  genres : List String
  popularity : ℚ
deriving DecidableEq, Repr

/-- The fields of the `prefs` dict that `demo_recommend` reads:
`genres`, `tone`, `recent_only`. -/
structure Prefs where
  genres : List String
  tone : Option String
  recent_only : Bool
deriving DecidableEq, Repr

/-- `RECENT_YEARS = 5` from the source. -/
def RECENT_YEARS : Int := 5

/-- A scored candidate `(rec, score, why)` as built inside `demo_recommend`. -/
abbrev Entry := Book × ℚ × List String

/-- Python truthiness of the `tone` value: `None` and the empty string are falsy. -/
def toneTruthy : Option String → Bool
  | none => false
  | some s => !(s == "")

/-- `_genre_overlap(user_genres, book_genres)`: lower-case both sides into
sets; `0.2` when the user set is empty, else `len(ug & bg) / max(1, len(ug))`. -/
def genre_overlap (user_genres book_genres : List String) : ℚ :=
  let ug := (user_genres.map String.toLower).dedup
  let bg := (book_genres.map String.toLower).dedup
  if ug = [] then 0.2
  else ((ug.filter (fun g => g ∈ bg)).length : ℚ) / ((max 1 ug.length : ℕ) : ℚ)

/-- `s_tone = 1.0 if (tone and tone == btone) else (0.5 if not tone else 0.2)`. -/
def tone_score (tone : Option String) (btone : String) : ℚ :=
  if toneTruthy tone = true ∧ tone = some btone then 1.0
  else if toneTruthy tone = false then 0.5 else 0.2

/-- `s_recent = 1.0 if year >= (CURRENT_YEAR - RECENT_YEARS) else 0.5`. -/
def recent_score (cy : Int) (year : Int) : ℚ :=
  if year ≥ cy - RECENT_YEARS then 1.0 else 0.5

/-- The mode-dependent popularity coefficients `(pop_alpha, pop_beta)`:
`famous ↦ (0.30, 0.00)`, `balanced ↦ (0.15, 0.10)`, any other string
(the `else` branch, commented `'discover'`) `↦ (0.00, explore_strength)`. -/
def pop_coeffs (mode : String) (explore_strength : ℚ) : ℚ × ℚ :=
  if mode = "famous" then (0.30, 0.00)
  else if mode = "balanced" then (0.15, 0.10)
  else (0.00, explore_strength)

/-- The composite score
`W_GENRE*s_genre + W_TONE*s_tone + W_RECENT*s_recent + pop_score` with
`W_GENRE = 0.55`, `W_TONE = 0.3`, `W_RECENT = 0.15` and
`pop_score = pop_alpha*popularity + pop_beta*(1.0 - popularity)`. -/
def book_score (cy : Int) (prefs : Prefs) (mode : String) (es : ℚ) (b : Book) : ℚ :=
  0.55 * genre_overlap prefs.genres b.genres
    + 0.3 * tone_score prefs.tone b.tone
    + 0.15 * recent_score cy b.year
    + ((pop_coeffs mode es).1 * b.popularity + (pop_coeffs mode es).2 * (1.0 - b.popularity))

/-- The `why` rationale list built for each scored candidate. -/
def why_tags (prefs : Prefs) (mode : String) (b : Book) : List String :=
  (if genre_overlap prefs.genres b.genres > 0.0 then ["장르 일치"] else [])
    ++ (if tone_score prefs.tone b.tone = 1.0 then ["톤 일치"] else [])
    ++ (if prefs.recent_only then ["최근 5년 필터"] else [])
    ++ [if mode = "discover" then "발굴 가중"
        else if mode = "famous" then "유명도 가중"
        else "균형 가중"]

/-- The `continue` guard of the scoring loop, negated: a book is kept unless
`recent_only and year < (CURRENT_YEAR - RECENT_YEARS)`. -/
def keepBook (cy : Int) (recent_only : Bool) (b : Book) : Bool :=
  !(recent_only && decide (b.year < cy - RECENT_YEARS))

/-- The `scored` list: every surviving catalog record paired with its
composite score and rationale tags, in catalog order. -/
def score_books (cy : Int) (catalog : List Book) (prefs : Prefs) (mode : String)
    (es : ℚ) : List Entry :=
  (catalog.filter (keepBook cy prefs.recent_only)).map
    (fun b => (b, book_score cy prefs mode es b, why_tags prefs mode b))

/-- Descending-score ordering used for `scored.sort(key=lambda x: x[1], reverse=True)`. -/
def entryGE (a b : Entry) : Prop := b.2.1 ≤ a.2.1

instance : DecidableRel entryGE :=
  fun a b => (inferInstance : Decidable (b.2.1 ≤ a.2.1))

instance : IsTotal Entry entryGE :=
  ⟨fun a b => (le_total b.2.1 a.2.1).imp id id⟩

instance : IsTrans Entry entryGE :=
  ⟨fun _ _ _ hab hbc => le_trans hbc hab⟩

/-- The author-diversity selection loop.  `n` is `len(picked)` so far and
`seen` is `seen_authors`; the returned list is what the loop appends from
this point on.  Mirrors
`if author in seen_authors and len(picked) < k-1: continue` /
`picked.append(...)` / `if len(picked) >= k: break`.
(For `k = 0` the Python test `len(picked) < k-1` compares with `-1` and is
false, exactly as the truncated `n < k - 1` here.) -/
def select_go (k : ℕ) : List Entry → List String → ℕ → List Entry
  | [], _, _ => []
  | e :: rest, seen, n =>
    if e.1.author ∈ seen ∧ n < k - 1 then
      select_go k rest seen n
    else if k ≤ n + 1 then [e]
    else e :: select_go k rest (e.1.author :: seen) (n + 1)

/-- `demo_recommend(prefs, k, mode, explore_strength)` over an explicit
catalog and current year: score the surviving books, sort by descending
score (Python's `list.sort` is stable; `List.insertionSort` is a stable
sort, so it has the same output on every input), then run the
author-diversity selection. -/
def demo_recommend (cy : Int) (catalog : List Book) (prefs : Prefs) (k : ℕ)
    (mode : String) (es : ℚ) : List Entry :=
  select_go k (List.insertionSort entryGE (score_books cy catalog prefs mode es)) [] 0

/-- The hard-coded demo catalog `DEMO_DB` from the source. -/
def DEMO_DB : List Book :=
  [ ⟨"노인과 바다", "어니스트 헤밍웨이", 1952, "잔잔", ["소설", "고전"], 0.98⟩,
    ⟨"그리고 아무도 없었다", "아가사 크리스티", 1939, "스릴", ["미스터리", "소설"], 0.97⟩,
    ⟨"데미안", "헤르만 헤세", 1919, "진지", ["소설", "성장"], 0.96⟩,
    ⟨"나는 고양이로소이다", "나쓰메 소세키", 1905, "유머", ["소설", "고전"], 0.9⟩,
    ⟨"해리 포터와 마법사의 돌", "J.K. 롤링", 1997, "모험", ["판타지", "소설"], 0.99⟩,
    ⟨"사피엔스", "유발 하라리", 2011, "진지", ["논픽션", "역사"], 0.98⟩,
    ⟨"유혹하는 에세이", "알랭 드 보통", 2000, "잔잔", ["에세이"], 0.85⟩,
    ⟨"The Midnight Library", "Matt Haig", 2020, "잔잔", ["소설"], 0.9⟩,
    ⟨"Project Hail Mary", "Andy Weir", 2021, "스릴", ["SF", "소설"], 0.92⟩,
    ⟨"나의 산책은 길에서 시작된다", "임의 작가A", 2018, "잔잔", ["에세이"], 0.3⟩,
    ⟨"도시의 낮은 별들", "임의 작가B", 2022, "진지", ["소설"], 0.25⟩,
    ⟨"바람이 그린 지도", "임의 작가C", 2023, "모험", ["소설", "여행"], 0.2⟩ ]

/-! ### Helper lemmas about the selection walk -/

/-- The selection walk only ever appends elements of its input list, in order. -/
theorem select_go_sublist (k : ℕ) (l : List Entry) : ∀ (seen : List String) (n : ℕ),
    List.Sublist (select_go k l seen n) l := by
  induction l with
  | nil => intro seen n; simp [select_go]
  | cons e rest ih =>
    intro seen n
    rw [select_go]
    split
    · exact (ih seen n).cons e
    · split
      · exact (List.nil_sublist rest).cons₂ e
      · exact (ih _ _).cons₂ e

/-- Starting from `n` accumulated picks with `n < k`, the walk accumulates at
most `k` picks in total. -/
theorem select_go_length (k : ℕ) (l : List Entry) : ∀ (seen : List String) (n : ℕ),
    n < k → (select_go k l seen n).length + n ≤ k := by
  induction l with
  | nil => intro seen n h; simp only [select_go, List.length_nil]; omega
  | cons e rest ih =>
    intro seen n h
    rw [select_go]
    split
    · exact ih seen n h
    · split
      · simp only [List.length_singleton]; omega
      · have := ih (e.1.author :: seen) (n + 1) (by omega)
        simp only [List.length_cons]
        omega

/-- While strictly more than one slot remains open, the first pick made by the
walk is never by an already-picked author. -/
theorem select_go_head_not_seen (k : ℕ) (l : List Entry) : ∀ (seen : List String) (n : ℕ),
    n < k - 1 → ∀ e, (select_go k l seen n).head? = some e → e.1.author ∉ seen := by
  induction l with
  | nil => intro seen n _ e he; simp [select_go] at he
  | cons x rest ih =>
    intro seen n hn e he
    rw [select_go] at he
    split at he
    · exact ih seen n hn e he
    · rename_i hcond
      have hx : x.1.author ∉ seen := fun hmem => hcond ⟨hmem, hn⟩
      split at he
      · simp only [List.head?_cons, Option.some.injEq] at he
        exact he ▸ hx
      · simp only [List.head?_cons, Option.some.injEq] at he
        exact he ▸ hx

/-- If every remaining candidate is by an author already picked and strictly
more than one slot remains open, the walk picks nothing further. -/
theorem select_go_same_author (k : ℕ) (l : List Entry) (a : String) :
    ∀ (seen : List String) (n : ℕ), (∀ x ∈ l, x.1.author = a) → a ∈ seen →
    n < k - 1 → select_go k l seen n = [] := by
  induction l with
  | nil => intros; simp [select_go]
  | cons x rest ih =>
    intro seen n hall hseen hn
    rw [select_go, if_pos ⟨by rw [hall x (by simp)]; exact hseen, hn⟩]
    exact ih seen n (fun y hy => hall y (by simp [hy])) hseen hn

/-- With no author yet picked, the walk over a non-empty list picks at least
one candidate. -/
theorem select_go_ne_nil (k : ℕ) (e : Entry) (rest : List Entry) (n : ℕ) :
    select_go k (e :: rest) [] n ≠ [] := by
  rw [select_go, if_neg (by simp)]
  split <;> simp

/-- The walk with no author yet picked returns `[]` exactly on the empty list. -/
theorem select_go_nil_iff (k n : ℕ) (l : List Entry) :
    select_go k l [] n = [] ↔ l = [] := by
  cases l with
  | nil => simp [select_go]
  | cons e rest => exact iff_of_false (select_go_ne_nil k e rest n) (by simp)

/-! ### Claim-side (spec-worded) sub-score definitions, for refinement claims -/

/-- The spec's genre sub-score: `0.2` when the user's genre set is empty,
otherwise the size of the intersection of the user's and the book's genre
sets divided by the number of the user's requested genres. -/
def claimed_genre_sub (ug bg : Finset String) : ℚ :=
  if ug = ∅ then 0.2 else ((ug ∩ bg).card : ℚ) / (ug.card : ℚ)

/-- The spec's tone sub-score: `1.0` when a tone was specified and equals the
book's tone, `0.2` when specified and different, `0.5` when none specified. -/
def claimed_tone_sub (tone : Option String) (btone : String) : ℚ :=
  match tone with
  | none => 0.5
  | some t => if t = btone then 1.0 else 0.2

/-- The spec's recency sub-score: `1.0` when the book's year is at least
`currentYear - 5`, else `0.5`, independent of the `recent_only` filter. -/
def claimed_recency (cy year : Int) : ℚ :=
  if cy - 5 ≤ year then 1.0 else 0.5

/-- The spec's `(alpha, beta)` table for the three documented modes. -/
def claimed_coeffs (mode : String) (es : ℚ) : ℚ × ℚ :=
  if mode = "discover" then (0.00, es)
  else if mode = "balanced" then (0.15, 0.10)
  else (0.30, 0.00)

/-- The code's genre sub-score agrees with the spec's set formulation. -/
theorem genre_overlap_eq_claimed (gs bgs : List String) :
    genre_overlap gs bgs
      = claimed_genre_sub ((gs.map String.toLower).toFinset)
          ((bgs.map String.toLower).toFinset) := by
  rw [genre_overlap, claimed_genre_sub]
  by_cases hug : (gs.map String.toLower).dedup = []
  · rw [if_pos hug, if_pos]
    rw [List.toFinset_eq_empty_iff]
    exact (List.dedup_eq_nil _).mp hug
  · rw [if_neg hug, if_neg]
    · have hnodup : ((gs.map String.toLower).dedup.filter
          (fun g => g ∈ (bgs.map String.toLower).dedup)).Nodup :=
        (List.nodup_dedup _).filter _
      have hset : ((gs.map String.toLower).dedup.filter
            (fun g => g ∈ (bgs.map String.toLower).dedup)).toFinset
          = (gs.map String.toLower).toFinset ∩ (bgs.map String.toLower).toFinset := by
        ext x
        simp [List.mem_filter, List.mem_dedup]
      have hcard : ((gs.map String.toLower).toFinset ∩
            (bgs.map String.toLower).toFinset).card
          = ((gs.map String.toLower).dedup.filter
              (fun g => g ∈ (bgs.map String.toLower).dedup)).length := by
        rw [← hset, List.toFinset_card_of_nodup hnodup]
      have hlen : (gs.map String.toLower).toFinset.card
          = (gs.map String.toLower).dedup.length := List.card_toFinset _
      have hmax : max 1 (gs.map String.toLower).dedup.length
          = (gs.map String.toLower).dedup.length := by
        have : (gs.map String.toLower).dedup.length ≠ 0 :=
          fun h => hug (List.length_eq_zero.mp h)
        omega
      rw [hcard, hlen, hmax]
    · rw [List.toFinset_eq_empty_iff]
      exact fun h => hug (by rw [h]; rfl)

/-- The code's tone sub-score agrees with the spec's three-valued table, as
long as the tone preference is not the (falsy) empty string. -/
theorem tone_score_eq_claimed (tone : Option String) (btone : String)
    (h : tone ≠ some "") : tone_score tone btone = claimed_tone_sub tone btone := by
  cases tone with
  | none => simp [tone_score, claimed_tone_sub, toneTruthy]
  | some t =>
    have hne : t ≠ "" := fun h' => h (by rw [h'])
    by_cases heq : t = btone
    · subst heq
      simp [tone_score, claimed_tone_sub, toneTruthy, hne]
    · simp [tone_score, claimed_tone_sub, toneTruthy, hne, heq]

/-- The code's recency sub-score agrees with the spec's, and does not read the
`recent_only` flag. -/
theorem recent_score_eq_claimed (cy year : Int) :
    recent_score cy year = claimed_recency cy year := by
  simp [recent_score, claimed_recency, RECENT_YEARS, ge_iff_le]

/-- On the three documented modes the code's coefficients agree with the
spec's table. -/
theorem pop_coeffs_eq_claimed (mode : String) (es : ℚ)
    (hmode : mode = "famous" ∨ mode = "balanced" ∨ mode = "discover") :
    pop_coeffs mode es = claimed_coeffs mode es := by
  rcases hmode with h | h | h <;> subst h <;> simp [pop_coeffs, claimed_coeffs]

/-- Any string in one of the optional singleton rationale chunks is that
chunk's tag. -/
theorem mem_ite_singleton {c : Prop} [Decidable c] {a b : String}
    (h : a ∈ if c then [b] else ([] : List String)) : a = b := by
  split at h <;> simp_all

/-- If every book of the catalog is by one author `a` and at least one book
survives the filter, `demo_recommend` with `k = 3` returns exactly one pick,
by `a`: after the first pick every candidate repeats the author while the
pick count `1` is still below `k - 1 = 2`, so all are skipped. -/
theorem recommend_same_author (cy : Int) (catalog : List Book) (prefs : Prefs)
    (mode : String) (es : ℚ) (a : String)
    (ha : ∀ b ∈ catalog, b.author = a)
    (hne : catalog.filter (keepBook cy prefs.recent_only) ≠ []) :
    ∃ e, demo_recommend cy catalog prefs 3 mode es = [e] ∧ e.1.author = a := by
  have hall : ∀ x ∈ List.insertionSort entryGE (score_books cy catalog prefs mode es),
      x.1.author = a := by
    intro x hx
    have hxm : x ∈ score_books cy catalog prefs mode es :=
      (List.perm_insertionSort entryGE _).mem_iff.mp hx
    simp only [score_books, List.mem_map, List.mem_filter] at hxm
    obtain ⟨b, ⟨hb, _⟩, rfl⟩ := hxm
    exact ha b hb
  have hne2 : List.insertionSort entryGE (score_books cy catalog prefs mode es) ≠ [] := by
    intro h
    apply hne
    have hlen := (List.perm_insertionSort entryGE
      (score_books cy catalog prefs mode es)).length_eq
    rw [h] at hlen
    have : (score_books cy catalog prefs mode es).length = 0 := hlen.symm
    have hsc : score_books cy catalog prefs mode es = [] := List.length_eq_zero.mp this
    have := congrArg List.length hsc
    simp only [score_books, List.length_map, List.length_nil] at this
    exact List.length_eq_zero.mp this
  obtain ⟨e, rest, hrest⟩ := List.exists_cons_of_ne_nil hne2
  have hea : e.1.author = a := hall e (by rw [hrest]; exact List.mem_cons_self e rest)
  refine ⟨e, ?_, hea⟩
  rw [demo_recommend, hrest, select_go, if_neg (by simp), if_neg (by omega), hea]
  rw [select_go_same_author 3 rest a [a] 1
    (fun y hy => hall y (by rw [hrest]; exact List.mem_cons_of_mem e hy))
    (by simp) (by omega)]

/-! ### Claim theorems -/

/-- C1: every scored candidate's composite score is
`0.55*g + 0.30*t + 0.15*r + alpha*popularity + beta*(1 - popularity)` with the
sub-scores and mode coefficients exactly as the spec states them (tone
preference is `none` or a genuine non-empty label). -/
theorem C1_composite_score (cy : Int) (catalog : List Book) (prefs : Prefs)
    (mode : String) (es : ℚ) (e : Entry)
    (hmode : mode = "famous" ∨ mode = "balanced" ∨ mode = "discover")
    (htone : prefs.tone ≠ some "")
    (he : e ∈ score_books cy catalog prefs mode es) :
    e.2.1 = 0.55 * claimed_genre_sub ((prefs.genres.map String.toLower).toFinset)
          ((e.1.genres.map String.toLower).toFinset)
        + 0.30 * claimed_tone_sub prefs.tone e.1.tone
        + 0.15 * claimed_recency cy e.1.year
        + (claimed_coeffs mode es).1 * e.1.popularity
        + (claimed_coeffs mode es).2 * (1 - e.1.popularity) := by
  simp only [score_books, List.mem_map, List.mem_filter] at he
  obtain ⟨b, _, rfl⟩ := he
  show book_score cy prefs mode es b = _
  rw [book_score, genre_overlap_eq_claimed, tone_score_eq_claimed _ _ htone,
    recent_score_eq_claimed, pop_coeffs_eq_claimed mode es hmode]
  ring

/-- C1 witness: a concrete famous-mode scoring of a one-book catalog. -/
theorem C1_composite_score_witness :
    (("famous" = "famous" ∨ "famous" = "balanced" ∨ "famous" = "discover")
     ∧ (Prefs.mk ["판타지"] (some "모험") false).tone ≠ some ""
     ∧ ((⟨"해리 포터와 마법사의 돌", "J.K. 롤링", 1997, "모험", ["판타지", "소설"], 0.99⟩,
          book_score 2025 (Prefs.mk ["판타지"] (some "모험") false) "famous" 0
            ⟨"해리 포터와 마법사의 돌", "J.K. 롤링", 1997, "모험", ["판타지", "소설"], 0.99⟩,
          why_tags (Prefs.mk ["판타지"] (some "모험") false) "famous"
            ⟨"해리 포터와 마법사의 돌", "J.K. 롤링", 1997, "모험", ["판타지", "소설"], 0.99⟩) : Entry)
        ∈ score_books 2025
            [⟨"해리 포터와 마법사의 돌", "J.K. 롤링", 1997, "모험", ["판타지", "소설"], 0.99⟩]
            (Prefs.mk ["판타지"] (some "모험") false) "famous" 0
     ∧ ((⟨"해리 포터와 마법사의 돌", "J.K. 롤링", 1997, "모험", ["판타지", "소설"], 0.99⟩,
          book_score 2025 (Prefs.mk ["판타지"] (some "모험") false) "famous" 0
            ⟨"해리 포터와 마법사의 돌", "J.K. 롤링", 1997, "모험", ["판타지", "소설"], 0.99⟩,
          why_tags (Prefs.mk ["판타지"] (some "모험") false) "famous"
            ⟨"해리 포터와 마법사의 돌", "J.K. 롤링", 1997, "모험", ["판타지", "소설"], 0.99⟩) : Entry).2.1
        = 0.55 * claimed_genre_sub
              (((Prefs.mk ["판타지"] (some "모험") false).genres.map String.toLower).toFinset)
              ((["판타지", "소설"].map String.toLower).toFinset)
          + 0.30 * claimed_tone_sub (Prefs.mk ["판타지"] (some "모험") false).tone "모험"
          + 0.15 * claimed_recency 2025 1997
          + (claimed_coeffs "famous" 0).1 * 0.99
          + (claimed_coeffs "famous" 0).2 * (1 - 0.99)) := by
  have hm : ("famous" = "famous" ∨ "famous" = "balanced" ∨ "famous" = "discover") :=
    Or.inl rfl
  have ht : (Prefs.mk ["판타지"] (some "모험") false).tone ≠ some "" := by simp
  have he : ((⟨"해리 포터와 마법사의 돌", "J.K. 롤링", 1997, "모험", ["판타지", "소설"], 0.99⟩,
          book_score 2025 (Prefs.mk ["판타지"] (some "모험") false) "famous" 0
            ⟨"해리 포터와 마법사의 돌", "J.K. 롤링", 1997, "모험", ["판타지", "소설"], 0.99⟩,
          why_tags (Prefs.mk ["판타지"] (some "모험") false) "famous"
            ⟨"해리 포터와 마법사의 돌", "J.K. 롤링", 1997, "모험", ["판타지", "소설"], 0.99⟩) : Entry)
        ∈ score_books 2025
            [⟨"해리 포터와 마법사의 돌", "J.K. 롤링", 1997, "모험", ["판타지", "소설"], 0.99⟩]
            (Prefs.mk ["판타지"] (some "모험") false) "famous" 0 := by
    simp [score_books, keepBook]
  exact ⟨hm, ht, he, C1_composite_score 2025 _ _ "famous" 0 _ hm ht he⟩

/-- C2 counterexample: with a synthetic catalog of 5 books all by `Author X`
and `k = 3`, the result has length `1`, not `3` as the claim states — after
the single pick every remaining candidate repeats the author while only one
pick (`< k - 1 = 2`) has accumulated, so all are skipped. -/
def c2_catalog : List Book :=
  [ ⟨"X1", "Author X", 2024, "잔잔", ["소설"], 0.9⟩,
    ⟨"X2", "Author X", 2024, "잔잔", ["소설"], 0.8⟩,
    ⟨"X3", "Author X", 2024, "잔잔", ["소설"], 0.7⟩,
    ⟨"X4", "Author X", 2024, "잔잔", ["소설"], 0.6⟩,
    ⟨"X5", "Author X", 2024, "잔잔", ["소설"], 0.5⟩ ]

/-- C2 fails on the code: the concrete 5-book same-author catalog with `k = 3`
yields a single pick, so the result length is not `3`. -/
theorem C2_counterexample :
    (demo_recommend 2025 c2_catalog (Prefs.mk [] none false) 3 "famous" 0).length = 1
    ∧ (demo_recommend 2025 c2_catalog (Prefs.mk [] none false) 3 "famous" 0).length ≠ 3 := by
  obtain ⟨e, hres, -⟩ := recommend_same_author 2025 c2_catalog (Prefs.mk [] none false)
    "famous" 0 "Author X"
    (by intro b hb; simp only [c2_catalog, List.mem_cons, List.not_mem_nil, or_false] at hb
        rcases hb with h | h | h | h | h <;> subst h <;> rfl)
    (by simp [c2_catalog, keepBook])
  rw [hres]
  simp

/-- C2 (amended): with a catalog of 5 books all by one author and `k = 3`,
the result has length `1` (when any book survives the filter) and the single
pick is by that author — the author is never repeated, because the repeat
relaxation only activates once `k - 1 = 2` picks have accumulated, which
never happens here. -/
theorem C2_amended (cy : Int) (catalog : List Book) (prefs : Prefs)
    (mode : String) (es : ℚ) (a : String)
    (ha : ∀ b ∈ catalog, b.author = a) (_h5 : catalog.length = 5)
    (hne : catalog.filter (keepBook cy prefs.recent_only) ≠ []) :
    (demo_recommend cy catalog prefs 3 mode es).length = 1
    ∧ ∀ e ∈ demo_recommend cy catalog prefs 3 mode es, e.1.author = a := by
  obtain ⟨e, hres, hae⟩ := recommend_same_author cy catalog prefs mode es a ha hne
  rw [hres]
  exact ⟨rfl, by simpa using hae⟩

/-- C2 amended witness: the concrete 5-book same-author catalog. -/
theorem C2_amended_witness :
    ((∀ b ∈ c2_catalog, b.author = "Author X")
     ∧ c2_catalog.length = 5
     ∧ c2_catalog.filter (keepBook 2025 (Prefs.mk [] none false).recent_only) ≠ []
     ∧ ((demo_recommend 2025 c2_catalog (Prefs.mk [] none false) 3 "famous" 0).length = 1
        ∧ ∀ e ∈ demo_recommend 2025 c2_catalog (Prefs.mk [] none false) 3 "famous" 0,
            e.1.author = "Author X")) := by
  have hA : ∀ b ∈ c2_catalog, b.author = "Author X" := by
    intro b hb
    simp only [c2_catalog, List.mem_cons, List.not_mem_nil, or_false] at hb
    rcases hb with h | h | h | h | h <;> subst h <;> rfl
  have h5 : c2_catalog.length = 5 := by simp [c2_catalog]
  have hNE : c2_catalog.filter (keepBook 2025 (Prefs.mk [] none false).recent_only) ≠ [] := by
    simp [c2_catalog, keepBook]
  exact ⟨hA, h5, hNE,
    C2_amended 2025 c2_catalog (Prefs.mk [] none false) "famous" 0 "Author X" hA h5 hNE⟩

/-- C7: in Discover mode, for two books with identical genre, tone, and
recency sub-scores and popularity of the first strictly below the second,
the first's score advantage over the second is monotone non-decreasing in
the exploration strength. -/
theorem C7_explore_monotone (cy : Int) (prefs : Prefs) (bA bB : Book)
    (hg : genre_overlap prefs.genres bA.genres = genre_overlap prefs.genres bB.genres)
    (ht : tone_score prefs.tone bA.tone = tone_score prefs.tone bB.tone)
    (hr : recent_score cy bA.year = recent_score cy bB.year)
    (hpop : bA.popularity < bB.popularity)
    (es1 es2 : ℚ) (hes : es1 ≤ es2) :
    book_score cy prefs "discover" es1 bA - book_score cy prefs "discover" es1 bB
      ≤ book_score cy prefs "discover" es2 bA - book_score cy prefs "discover" es2 bB := by
  have h1 : ∀ t : ℚ, pop_coeffs "discover" t = (0, t) := fun t => by
    rw [pop_coeffs, if_neg (by decide), if_neg (by decide)]
    norm_num
  simp only [book_score, h1]
  rw [hg, ht, hr]
  nlinarith [mul_nonneg (sub_nonneg.mpr hes) (sub_nonneg.mpr hpop.le)]

/-- C7 witness: two concrete books identical except for popularity `0 < 1`,
with exploration strengths `0 ≤ 1`. -/
theorem C7_explore_monotone_witness :
    (genre_overlap (Prefs.mk [] none false).genres (["소설"] : List String)
        = genre_overlap (Prefs.mk [] none false).genres (["소설"] : List String)
     ∧ tone_score (Prefs.mk [] none false).tone "잔잔"
        = tone_score (Prefs.mk [] none false).tone "잔잔"
     ∧ recent_score 2025 2024 = recent_score 2025 2024
     ∧ ((⟨"A", "AuthA", 2024, "잔잔", ["소설"], 0⟩ : Book).popularity
        < (⟨"B", "AuthB", 2024, "잔잔", ["소설"], 1⟩ : Book).popularity)
     ∧ (0 : ℚ) ≤ 1
     ∧ (book_score 2025 (Prefs.mk [] none false) "discover" 0
            ⟨"A", "AuthA", 2024, "잔잔", ["소설"], 0⟩
          - book_score 2025 (Prefs.mk [] none false) "discover" 0
            ⟨"B", "AuthB", 2024, "잔잔", ["소설"], 1⟩
        ≤ book_score 2025 (Prefs.mk [] none false) "discover" 1
            ⟨"A", "AuthA", 2024, "잔잔", ["소설"], 0⟩
          - book_score 2025 (Prefs.mk [] none false) "discover" 1
            ⟨"B", "AuthB", 2024, "잔잔", ["소설"], 1⟩)) := by
  have hpop : ((⟨"A", "AuthA", 2024, "잔잔", ["소설"], 0⟩ : Book).popularity
      < (⟨"B", "AuthB", 2024, "잔잔", ["소설"], 1⟩ : Book).popularity) := by norm_num
  have hes : (0 : ℚ) ≤ 1 := by norm_num
  exact ⟨rfl, rfl, rfl, hpop, hes,
    C7_explore_monotone 2025 (Prefs.mk [] none false)
      ⟨"A", "AuthA", 2024, "잔잔", ["소설"], 0⟩
      ⟨"B", "AuthB", 2024, "잔잔", ["소설"], 1⟩ rfl rfl rfl hpop 0 1 hes⟩

/-- C10: an unrecognised mode string is not rejected: it is scored with the
Discover coefficients `(0, explorationStrength)` while each candidate's
rationale carries the Balanced tag, not the Discover or Famous tag. -/
theorem C10_unknown_mode (cy : Int) (catalog : List Book) (prefs : Prefs)
    (mode : String) (es : ℚ) (e : Entry)
    (h1 : mode ≠ "famous") (h2 : mode ≠ "balanced") (h3 : mode ≠ "discover")
    (he : e ∈ score_books cy catalog prefs mode es) :
    pop_coeffs mode es = (0.00, es)
    ∧ e.2.1 = 0.55 * genre_overlap prefs.genres e.1.genres
        + 0.3 * tone_score prefs.tone e.1.tone
        + 0.15 * recent_score cy e.1.year
        + (0.00 * e.1.popularity + es * (1.0 - e.1.popularity))
    ∧ "균형 가중" ∈ e.2.2
    ∧ "발굴 가중" ∉ e.2.2
    ∧ "유명도 가중" ∉ e.2.2 := by
  have hc : pop_coeffs mode es = (0.00, es) := by simp [pop_coeffs, h1, h2]
  have htag : (if mode = "discover" then "발굴 가중"
      else if mode = "famous" then "유명도 가중" else "균형 가중") = "균형 가중" := by
    simp [h3, h1]
  simp only [score_books, List.mem_map, List.mem_filter] at he
  obtain ⟨b, _, rfl⟩ := he
  refine ⟨hc, ?_, ?_, ?_, ?_⟩
  · show book_score cy prefs mode es b = _
    rw [book_score, hc]
  · show "균형 가중" ∈ why_tags prefs mode b
    rw [why_tags, htag]
    simp
  · show "발굴 가중" ∉ why_tags prefs mode b
    intro hmem
    rw [why_tags, htag] at hmem
    rcases List.mem_append.mp hmem with hmem | hmem
    · rcases List.mem_append.mp hmem with hmem | hmem
      · rcases List.mem_append.mp hmem with hmem | hmem
        · exact absurd (mem_ite_singleton hmem) (by simp)
        · exact absurd (mem_ite_singleton hmem) (by simp)
      · exact absurd (mem_ite_singleton hmem) (by simp)
    · simp at hmem
  · show "유명도 가중" ∉ why_tags prefs mode b
    intro hmem
    rw [why_tags, htag] at hmem
    rcases List.mem_append.mp hmem with hmem | hmem
    · rcases List.mem_append.mp hmem with hmem | hmem
      · rcases List.mem_append.mp hmem with hmem | hmem
        · exact absurd (mem_ite_singleton hmem) (by simp)
        · exact absurd (mem_ite_singleton hmem) (by simp)
      · exact absurd (mem_ite_singleton hmem) (by simp)
    · simp at hmem

/-- C10 witness: a concrete unknown mode string on a one-book catalog. -/
theorem C10_unknown_mode_witness :
    (("popular" : String) ≠ "famous" ∧ ("popular" : String) ≠ "balanced"
     ∧ ("popular" : String) ≠ "discover"
     ∧ ((⟨"T", "A", 2024, "잔잔", ["소설"], 0⟩,
          book_score 2025 (Prefs.mk [] none false) "popular" 1
            ⟨"T", "A", 2024, "잔잔", ["소설"], 0⟩,
          why_tags (Prefs.mk [] none false) "popular"
            ⟨"T", "A", 2024, "잔잔", ["소설"], 0⟩) : Entry)
        ∈ score_books 2025 [⟨"T", "A", 2024, "잔잔", ["소설"], 0⟩]
            (Prefs.mk [] none false) "popular" 1
     ∧ (pop_coeffs "popular" 1 = (0.00, 1)
        ∧ ((⟨"T", "A", 2024, "잔잔", ["소설"], 0⟩,
            book_score 2025 (Prefs.mk [] none false) "popular" 1
              ⟨"T", "A", 2024, "잔잔", ["소설"], 0⟩,
            why_tags (Prefs.mk [] none false) "popular"
              ⟨"T", "A", 2024, "잔잔", ["소설"], 0⟩) : Entry).2.1
          = 0.55 * genre_overlap (Prefs.mk [] none false).genres (["소설"] : List String)
            + 0.3 * tone_score (Prefs.mk [] none false).tone "잔잔"
            + 0.15 * recent_score 2025 2024
            + (0.00 * (0 : ℚ) + 1 * (1.0 - (0 : ℚ)))
        ∧ "균형 가중" ∈ why_tags (Prefs.mk [] none false) "popular"
            ⟨"T", "A", 2024, "잔잔", ["소설"], 0⟩
        ∧ "발굴 가중" ∉ why_tags (Prefs.mk [] none false) "popular"
            ⟨"T", "A", 2024, "잔잔", ["소설"], 0⟩
        ∧ "유명도 가중" ∉ why_tags (Prefs.mk [] none false) "popular"
            ⟨"T", "A", 2024, "잔잔", ["소설"], 0⟩)) := by
  have h1 : ("popular" : String) ≠ "famous" := by simp
  have h2 : ("popular" : String) ≠ "balanced" := by simp
  have h3 : ("popular" : String) ≠ "discover" := by simp
  have he : ((⟨"T", "A", 2024, "잔잔", ["소설"], 0⟩,
          book_score 2025 (Prefs.mk [] none false) "popular" 1
            ⟨"T", "A", 2024, "잔잔", ["소설"], 0⟩,
          why_tags (Prefs.mk [] none false) "popular"
            ⟨"T", "A", 2024, "잔잔", ["소설"], 0⟩) : Entry)
      ∈ score_books 2025 [⟨"T", "A", 2024, "잔잔", ["소설"], 0⟩]
          (Prefs.mk [] none false) "popular" 1 := by
    simp [score_books, keepBook]
  exact ⟨h1, h2, h3, he, C10_unknown_mode 2025 _ _ "popular" 1 _ h1 h2 h3 he⟩

/-- C3: during the selection walk, a candidate whose author was already picked
is picked immediately (it is the head of what the walk returns) iff at least
`k - 1` picks have accumulated, and is skipped (the walk continues unchanged)
iff fewer than `k - 1` picks have accumulated; the walk output is a sublist of
the remaining candidates and never accumulates more than `k` picks. -/
theorem C3_skip_rule (k n : ℕ) (e : Entry) (rest : List Entry) (seen : List String)
    (ha : e.1.author ∈ seen) :
    ((select_go k (e :: rest) seen n).head? = some e ↔ k - 1 ≤ n)
    ∧ (n < k - 1 → select_go k (e :: rest) seen n = select_go k rest seen n)
    ∧ List.Sublist (select_go k (e :: rest) seen n) (e :: rest)
    ∧ (n < k → (select_go k (e :: rest) seen n).length + n ≤ k) := by
  refine ⟨⟨?_, ?_⟩, ?_, select_go_sublist k (e :: rest) seen n,
    fun h => select_go_length k (e :: rest) seen n h⟩
  · intro hh
    by_contra hlt
    push_neg at hlt
    exact select_go_head_not_seen k (e :: rest) seen n (by omega) e hh ha
  · intro hge
    rw [select_go, if_neg (by omega)]
    split <;> simp
  · intro hlt
    rw [select_go, if_pos ⟨ha, hlt⟩]

/-- C3 witness: a concrete run of the selection walk, with one slot open and
the head candidate's author already picked. -/
theorem C3_skip_rule_witness :
    (let e : Entry := (⟨"T", "A", 2024, "잔잔", ["소설"], 1⟩, 1, []);
     e.1.author ∈ ["A"]
     ∧ (((select_go 3 [e] ["A"] 0).head? = some e ↔ 3 - 1 ≤ 0)
        ∧ (0 < 3 - 1 → select_go 3 [e] ["A"] 0 = select_go 3 [] ["A"] 0)
        ∧ List.Sublist (select_go 3 [e] ["A"] 0) [e]
        ∧ (0 < 3 → (select_go 3 [e] ["A"] 0).length + 0 ≤ 3))) :=
  ⟨by simp, C3_skip_rule 3 0 _ [] ["A"] (by simp)⟩

/-- C4: for positive `k` and a duplicate-free catalog, the result has length at
most `k`, at most the number of books surviving the filter, and contains no
book record twice. -/
theorem C4_bounds_nodup (cy : Int) (catalog : List Book) (prefs : Prefs) (k : ℕ)
    (mode : String) (es : ℚ) (hk : 1 ≤ k) (hcat : catalog.Nodup) :
    (demo_recommend cy catalog prefs k mode es).length ≤ k
    ∧ (demo_recommend cy catalog prefs k mode es).length ≤
        (catalog.filter (keepBook cy prefs.recent_only)).length
    ∧ ((demo_recommend cy catalog prefs k mode es).map (fun e => e.1)).Nodup := by
  have hsub := select_go_sublist k
    (List.insertionSort entryGE (score_books cy catalog prefs mode es)) [] 0
  have hperm := List.perm_insertionSort entryGE (score_books cy catalog prefs mode es)
  have hmap : (score_books cy catalog prefs mode es).map (fun e => e.1)
      = catalog.filter (keepBook cy prefs.recent_only) := by
    simp [score_books, Function.comp_def]
  refine ⟨?_, ?_, ?_⟩
  · have := select_go_length k
      (List.insertionSort entryGE (score_books cy catalog prefs mode es)) [] 0 (by omega)
    simpa [demo_recommend] using this
  · calc (demo_recommend cy catalog prefs k mode es).length
        ≤ (List.insertionSort entryGE (score_books cy catalog prefs mode es)).length :=
          hsub.length_le
      _ = (score_books cy catalog prefs mode es).length := hperm.length_eq
      _ = (catalog.filter (keepBook cy prefs.recent_only)).length := by simp [score_books]
  · have hfil : (catalog.filter (keepBook cy prefs.recent_only)).Nodup := hcat.filter _
    have hpm : List.Perm
        ((List.insertionSort entryGE (score_books cy catalog prefs mode es)).map
          (fun e => e.1))
        (catalog.filter (keepBook cy prefs.recent_only)) :=
      hmap ▸ hperm.map (fun e => e.1)
    exact ((hpm.nodup_iff).mpr hfil).sublist (hsub.map (fun e => e.1))

/-- C4 witness: a concrete duplicate-free catalog with `k = 2`. -/
theorem C4_bounds_nodup_witness :
    (let b1 : Book := ⟨"T1", "A", 2024, "잔잔", ["소설"], 1⟩;
     let b2 : Book := ⟨"T2", "B", 2024, "잔잔", ["소설"], 0⟩;
     1 ≤ 2 ∧ ([b1, b2] : List Book).Nodup
     ∧ ((demo_recommend 2025 [b1, b2] ⟨[], none, false⟩ 2 "famous" 0).length ≤ 2
        ∧ (demo_recommend 2025 [b1, b2] ⟨[], none, false⟩ 2 "famous" 0).length ≤
            (([b1, b2] : List Book).filter (keepBook 2025 (Prefs.mk [] none false).recent_only)).length
        ∧ ((demo_recommend 2025 [b1, b2] ⟨[], none, false⟩ 2 "famous" 0).map
            (fun e => e.1)).Nodup)) :=
  ⟨by omega, by simp, C4_bounds_nodup 2025 _ _ 2 "famous" 0 (by omega) (by simp)⟩

/-- C5: when `recent_only` is set, no book older than `CURRENT_YEAR - RECENT_YEARS`
appears in the result, whatever the other inputs. -/
theorem C5_recent_filter (cy : Int) (catalog : List Book) (prefs : Prefs) (k : ℕ)
    (mode : String) (es : ℚ) (hro : prefs.recent_only = true) :
    ∀ e ∈ demo_recommend cy catalog prefs k mode es, ¬(e.1.year < cy - RECENT_YEARS) := by
  intro e he
  have hs : e ∈ List.insertionSort entryGE (score_books cy catalog prefs mode es) :=
    (select_go_sublist k _ [] 0).subset he
  have hm : e ∈ score_books cy catalog prefs mode es :=
    (List.perm_insertionSort entryGE _).mem_iff.mp hs
  simp only [score_books, List.mem_map, List.mem_filter] at hm
  obtain ⟨b, ⟨_, hkeep⟩, rfl⟩ := hm
  simp only [keepBook, hro, Bool.true_and, Bool.not_eq_true', decide_eq_false_iff_not] at hkeep
  exact hkeep

/-- C5 witness: a one-book catalog, the book recent, with the filter active. -/
theorem C5_recent_filter_witness :
    ((Prefs.mk [] none true).recent_only = true
     ∧ ∀ e ∈ demo_recommend 2025 [⟨"T", "A", 2024, "잔잔", ["소설"], 1⟩]
        ⟨[], none, true⟩ 3 "famous" 0, ¬(e.1.year < 2025 - RECENT_YEARS)) :=
  ⟨rfl, C5_recent_filter 2025 _ _ 3 "famous" 0 rfl⟩

/-- C6: every result is pairwise non-increasing in composite score (the
diversity walk preserves the descending sort order; no re-sort happens). -/
theorem C6_descending (cy : Int) (catalog : List Book) (prefs : Prefs) (k : ℕ)
    (mode : String) (es : ℚ) :
    List.Pairwise entryGE (demo_recommend cy catalog prefs k mode es) := by
  have hsorted : (List.insertionSort entryGE (score_books cy catalog prefs mode es)).Pairwise
      entryGE := List.sorted_insertionSort entryGE _
  exact hsorted.sublist (select_go_sublist k _ [] 0)

/-- C8: the result is empty exactly when no catalog book survives the
`recent_only` filter; in particular an empty catalog yields an empty result
and nothing is ever raised (the function is total by construction). -/
theorem C8_empty_iff (cy : Int) (catalog : List Book) (prefs : Prefs) (k : ℕ)
    (mode : String) (es : ℚ) :
    demo_recommend cy catalog prefs k mode es = []
      ↔ catalog.filter (keepBook cy prefs.recent_only) = [] := by
  have h1 : List.insertionSort entryGE (score_books cy catalog prefs mode es) = []
      ↔ score_books cy catalog prefs mode es = [] := by
    constructor
    · intro h
      have hlen := (List.perm_insertionSort entryGE
        (score_books cy catalog prefs mode es)).length_eq
      rw [h] at hlen
      exact List.length_eq_zero.mp hlen.symm
    · intro h; rw [h]; rfl
  rw [demo_recommend, select_go_nil_iff, h1]
  simp [score_books]

/-- C9: the scorer is deterministic: identical inputs give identical outputs
(the embedding is a pure function, so the catalog cannot be mutated). -/
theorem C9_deterministic (cy : Int) (catalog catalog' : List Book)
    (prefs prefs' : Prefs) (k k' : ℕ) (mode mode' : String) (es es' : ℚ)
    (hc : catalog = catalog') (hp : prefs = prefs') (hk : k = k')
    (hm : mode = mode') (he : es = es') :
    demo_recommend cy catalog prefs k mode es
      = demo_recommend cy catalog' prefs' k' mode' es' := by
  subst hc hp hk hm he; rfl

/-- C9 witness: two identical calls on a concrete input coincide. -/
theorem C9_deterministic_witness :
    (DEMO_DB = DEMO_DB ∧ demo_recommend 2025 DEMO_DB ⟨[], none, false⟩ 5 "famous" (3/5)
      = demo_recommend 2025 DEMO_DB ⟨[], none, false⟩ 5 "famous" (3/5)) :=
  ⟨rfl, C9_deterministic 2025 DEMO_DB DEMO_DB _ _ 5 5 "famous" "famous" (3/5) (3/5)
    rfl rfl rfl rfl rfl⟩

end ChatbotRecommender
